import Mathlib

/-!
Verification of the chat orchestration and history-windowing core of the
`firebase-angular` repository (Angular + Firebase chat client).

The embedding below translates, from the TypeScript source:
  * the `ChatMessage` data model (`src/app/models/chat.ts`);
  * the history converters `OpenAIService.convertHistoryToOpenAI` and
    `GeminiService.convertHistoryToGemini` (`src/app/services/gemini.ts`,
    both provider variants live in that concatenated source file);
  * `ChatService.sendMessage`, `ChatService.clearChat`
    (`src/app/services/chat.ts`).

`sendMessage` is an async method whose effects are the emissions on two
BehaviorSubjects (message list, assistant-busy flag), awaited Firestore
saves, and one awaited generation call.  It is embedded as a pure function
from an environment (current user, outcomes of the external awaited calls,
clock values for `new Date()`) and a pre-state to a post-state, an ordered
trace of the effects it performs, and a result (`Except` models promise
resolution/rejection).  The trace order mirrors the statement order of the
source, which runs on a single logical thread between suspension points.
-/

set_option autoImplicit false

namespace FirebaseChat

universe u

/-- `type` field of `ChatMessage`: `'user' | 'assistant'`. -/
inductive Role : Type
  | user
  | assistant
deriving DecidableEq, Repr

/-- `status` field of `ChatMessage`: `'sending' | 'sent' | 'error' | 'temporary'`. -/
inductive Status : Type
  | sending
  | sent
  | error
  | temporary
deriving DecidableEq, Repr

/-- `ChatMessage` from `src/app/models/chat.ts`.  `sentAt : Date` is embedded
as a `Nat` timestamp. -/
structure ChatMessage : Type where
  id : Option String := none
  userId : String
  content : String
  sentAt : Nat
  type : Role
  status : Option Status := none
deriving DecidableEq, Repr

/-- `User` from `src/app/models/user.ts`; only `uid` is read by `ChatService`,
the remaining fields are carried along unchanged. -/
structure User : Type where
  uid : String
  email : String := ""
  name : Option String := none
deriving DecidableEq, Repr

/-- JavaScript `l.slice(-n)`: the last `min n l.length` elements of `l`. -/
def sliceLast {α : Type u} (n : Nat) (l : List α) : List α :=
  l.drop (l.length - n)

/-! ### OpenAI provider format (`OpenAIService`) -/

/-- `role` of a `MessageOpenAI`: `'system' | 'user' | 'assistant'`. -/
inductive ORole : Type
  | system
  | user
  | assistant
deriving DecidableEq, Repr

/-- `MessageOpenAI` from `src/app/services/gemini.ts` (OpenAI variant). -/
structure MessageOpenAI : Type where
  role : ORole
  content : String
deriving DecidableEq, Repr

/-- The per-message conversion inside `convertHistoryToOpenAI`:
`{ role: msg.type === 'user' ? 'user' : 'assistant', content: msg.content }`. -/
def toOpenAIMessage (msg : ChatMessage) : MessageOpenAI :=
  { role := if msg.type = Role.user then ORole.user else ORole.assistant
    content := msg.content }

/-- `OpenAIService.convertHistoryToOpenAI`: map to provider roles; if the
converted history has more than 8 entries, keep the last 6 (`slice(-6)`) and,
when the kept slice starts with an assistant reply, drop that leading
element (`slice(1)`). -/
def convertHistoryToOpenAI (messages : List ChatMessage) : List MessageOpenAI :=
  let convertedHistory := messages.map toOpenAIMessage
  if convertedHistory.length > 8 then
    let lastMessages := sliceLast 6 convertedHistory
    match lastMessages with
    | m :: rest => if m.role = ORole.assistant then rest else m :: rest
    | [] => []
  else
    convertedHistory

/-! ### Gemini provider format (`GeminiService`) -/

/-- `role` of a `ContentGemini`: `'user' | 'model'`. -/
inductive GRole : Type
  | user
  | model
deriving DecidableEq, Repr

/-- `PartGemini` from `src/app/services/gemini.ts`. -/
structure PartGemini : Type where
  text : String
deriving DecidableEq, Repr

/-- `ContentGemini` from `src/app/services/gemini.ts`. -/
structure ContentGemini : Type where
  role : GRole
  parts : List PartGemini
deriving DecidableEq, Repr

/-- The per-message conversion inside `convertHistoryToGemini`:
`{ role: msg.type === 'user' ? 'user' : 'model', parts: [{ text: msg.content }] }`. -/
def toGeminiContent (msg : ChatMessage) : ContentGemini :=
  { role := if msg.type = Role.user then GRole.user else GRole.model
    parts := [{ text := msg.content }] }

/-- `GeminiService.convertHistoryToGemini`: identical windowing logic to the
OpenAI variant, with `'model'` as the assistant-side role. -/
def convertHistoryToGemini (messages : List ChatMessage) : List ContentGemini :=
  let convertedHistory := messages.map toGeminiContent
  if convertedHistory.length > 8 then
    let lastMessages := sliceLast 6 convertedHistory
    match lastMessages with
    | m :: rest => if m.role = GRole.model then rest else m :: rest
    | [] => []
  else
    convertedHistory

/-! ### ChatService state, effects, and `sendMessage` -/

/-- The mutable state owned by `ChatService`: the message-list
BehaviorSubject value and the assistant-busy BehaviorSubject value. -/
structure ChatState : Type where
  messages : List ChatMessage
  assistantResponding : Bool
deriving DecidableEq, Repr

/-- One observable effect of `sendMessage`/`clearChat`, in program order:
`emitMessages` and `emitBusy` are `BehaviorSubject.next` calls;
`saveMessageCall` is an awaited `firestoreService.saveMessage` (with its
outcome); `generationCall` is the awaited `openaiService.sendMessage`;
`mockSaveCall` is the `firestoreServiceMock.saveMessage` used in the error
branch. -/
inductive ChatEvent : Type
  | emitMessages (msgs : List ChatMessage)
  | saveMessageCall (msg : ChatMessage) (ok : Bool)
  | emitBusy (b : Bool)
  | generationCall (content : String) (history : List MessageOpenAI)
  | mockSaveCall (msg : ChatMessage)
deriving DecidableEq, Repr

/-- Rejection values of the `sendMessage` promise:
`throw new Error('User not authenticated')`, and the re-thrown generation
error from the catch block (the spec's `GenerationFailed`, carrying the
provider error message). -/
inductive SendError : Type
  | notAuthenticated
  | generationFailed (message : String)
deriving DecidableEq, Repr

/-- The environment a single `sendMessage` call runs in: the identity
provider's current user, the `new Date()` values observed at the three
message-construction sites, and the outcomes of the external awaited calls
(real Firestore saves, generation backend). -/
structure SendEnv : Type where
  currentUser : Option User
  nowUser : Nat
  nowAssistant : Nat
  nowError : Nat
  saveUserOk : Bool
  genResult : Except String String
  saveAssistantOk : Bool
deriving Repr

/-- `firestoreServiceMock.saveMessage` from `src/app/services/chat.ts`:
`async (message) => Promise.resolve()` — it always resolves. -/
def firestoreServiceMockSaveMessage (_message : ChatMessage) : Except String Unit :=
  Except.ok ()

/-- JavaScript `s.trim()`: remove leading and trailing whitespace.
(Embedded structurally over the character list so that it evaluates;
`messageContent.trim()` in the source.) -/
def trimString (s : String) : String :=
  String.mk (((s.data.dropWhile Char.isWhitespace).reverse.dropWhile Char.isWhitespace).reverse)

/-- The canonical apology text of the error message constructed in the
catch block of `sendMessage`. -/
def apologyText : String :=
  "Sorry, there was a problem processing your message. Please try again."

/-- The user message constructed by `sendMessage`:
`{ userId, content: messageContent.trim(), sentAt: new Date(), type: 'user', status: 'sending' }`. -/
def userMessageOf (uid : String) (messageContent : String) (now : Nat) : ChatMessage :=
  { userId := uid
    content := trimString messageContent
    sentAt := now
    type := Role.user
    status := some Status.sending }

/-- The assistant message constructed on generation success:
`{ userId, content: assistantResponse, sentAt: new Date(), type: 'assistant', status: 'sent' }`. -/
def assistantMessageOf (uid : String) (assistantResponse : String) (now : Nat) : ChatMessage :=
  { userId := uid
    content := assistantResponse
    sentAt := now
    type := Role.assistant
    status := some Status.sent }

/-- The error message constructed in the catch block:
`{ userId, content: apology, sentAt: new Date(), type: 'assistant', status: 'error' }`. -/
def errorMessageOf (uid : String) (now : Nat) : ChatMessage :=
  { userId := uid
    content := apologyText
    sentAt := now
    type := Role.assistant
    status := some Status.error }

/-- Equality of promise outcomes is decidable (needed so that concrete
`sendMessage` runs can be checked by evaluation). -/
instance {ε α : Type} [DecidableEq ε] [DecidableEq α] : DecidableEq (Except ε α) := fun x y =>
  match x, y with
  | Except.ok a, Except.ok b =>
    if h : a = b then isTrue (by rw [h]) else isFalse (by intro hc; cases hc; exact h rfl)
  | Except.error a, Except.error b =>
    if h : a = b then isTrue (by rw [h]) else isFalse (by intro hc; cases hc; exact h rfl)
  | Except.ok _, Except.error _ => isFalse (by intro hc; cases hc)
  | Except.error _, Except.ok _ => isFalse (by intro hc; cases hc)

/-- Result of one `sendMessage` call: post-state, effect trace in program
order, and promise outcome. -/
structure SendOutcome : Type where
  state : ChatState
  trace : List ChatEvent
  result : Except SendError Unit
deriving DecidableEq, Repr

/-- `ChatService.sendMessage`, transcribed statement by statement:

1. `getCurrentUser()`; if `null`, throw `'User not authenticated'`.
2. If `messageContent.trim()` is empty, return (resolve) without mutation.
3. Build the user message; append it to `subjectMessages` (optimistic UI).
4. Awaited `firestoreService.saveMessage(userMessage)`; failure swallowed.
5. `assistantResponding.next(true)`.
6. Window the current log with `slice(-6)` and `convertHistoryToOpenAI`.
7. Awaited generation call.  On success: build the assistant message,
   append it, awaited save (failure swallowed), then `finally` clears the
   busy flag and the promise resolves.
8. On generation failure: build the error message, call the mock save
   (`firestoreServiceMock.saveMessage`); only if that save rejected would
   the error message be appended to the in-memory log; then `finally`
   clears the busy flag and the original error is re-thrown. -/
def sendMessage (env : SendEnv) (s : ChatState) (messageContent : String) : SendOutcome :=
  match env.currentUser with
  | none =>
    { state := s, trace := [], result := Except.error SendError.notAuthenticated }
  | some currentUser =>
    if trimString messageContent = "" then
      { state := s, trace := [], result := Except.ok () }
    else
      let userMessage := userMessageOf currentUser.uid messageContent env.nowUser
      let userMessages := s.messages
      let newMessages := userMessages ++ [userMessage]
      let s1 : ChatState := { s with messages := newMessages }
      let trace1 := [ChatEvent.emitMessages newMessages,
                     ChatEvent.saveMessageCall userMessage env.saveUserOk,
                     ChatEvent.emitBusy true]
      let s2 : ChatState := { s1 with assistantResponding := true }
      let currentMessages := s2.messages
      let openaiHistory := convertHistoryToOpenAI (sliceLast 6 currentMessages)
      let trace2 := trace1 ++ [ChatEvent.generationCall messageContent openaiHistory]
      match env.genResult with
      | Except.ok assistantResponse =>
        let assistantMessage := assistantMessageOf currentUser.uid assistantResponse env.nowAssistant
        let updatedMessages := s2.messages
        let newMessages2 := updatedMessages ++ [assistantMessage]
        let s3 : ChatState := { s2 with messages := newMessages2 }
        let trace3 := trace2 ++ [ChatEvent.emitMessages newMessages2,
                                 ChatEvent.saveMessageCall assistantMessage env.saveAssistantOk]
        let s4 : ChatState := { s3 with assistantResponding := false }
        { state := s4
          trace := trace3 ++ [ChatEvent.emitBusy false]
          result := Except.ok () }
      | Except.error err =>
        let errorMessage := errorMessageOf currentUser.uid env.nowError
        match firestoreServiceMockSaveMessage errorMessage with
        | Except.ok _ =>
          let s3 : ChatState := { s2 with assistantResponding := false }
          { state := s3
            trace := trace2 ++ [ChatEvent.mockSaveCall errorMessage,
                                ChatEvent.emitBusy false]
            result := Except.error (SendError.generationFailed err) }
        | Except.error _ =>
          let currentMessages2 := s2.messages
          let s3 : ChatState := { s2 with messages := currentMessages2 ++ [errorMessage] }
          let s4 : ChatState := { s3 with assistantResponding := false }
          { state := s4
            trace := trace2 ++ [ChatEvent.mockSaveCall errorMessage,
                                ChatEvent.emitMessages (currentMessages2 ++ [errorMessage]),
                                ChatEvent.emitBusy false]
            result := Except.error (SendError.generationFailed err) }

/-- `ChatService.getMessages`: synchronous snapshot of the message list. -/
def getMessages (s : ChatState) : List ChatMessage :=
  s.messages

/-- `ChatService.clearChat`: `subjectMessages.next([])` — resets the list
and emits; nothing else. -/
def clearChat (s : ChatState) : ChatState × List ChatEvent :=
  ({ s with messages := [] }, [ChatEvent.emitMessages []])

/-- The busy-flag emission carried by an event, if any
(a subscriber of `assistantResponding$` observes exactly these). -/
def busyEvent : ChatEvent → Option Bool
  | ChatEvent.emitBusy b => some b
  | _ => none

/-- Whether an event is an awaited I/O call (a suspension point):
a durable save or the generation call. -/
def isAwaitedCall : ChatEvent → Bool
  | ChatEvent.saveMessageCall _ _ => true
  | ChatEvent.generationCall _ _ => true
  | ChatEvent.mockSaveCall _ => true
  | _ => false

/-- Whether an event is a call to durable storage. -/
def isStorageCall : ChatEvent → Bool
  | ChatEvent.saveMessageCall _ _ => true
  | ChatEvent.mockSaveCall _ => true
  | _ => false

/-- The provider history carried by a generation-call event, if any. -/
def generationHistory : ChatEvent → Option (List MessageOpenAI)
  | ChatEvent.generationCall _ history => some history
  | _ => none

/-! ### Helper lemmas -/

/-- `slice(-n)` keeps at most `n` elements. -/
theorem sliceLast_length_le {α : Type u} (n : Nat) (l : List α) :
    (sliceLast n l).length ≤ n := by
  simp [sliceLast]
  omega

/-- When the log is strictly longer than `n ≥ 6`, `slice(-6)` keeps exactly 6
elements. -/
theorem sliceLast_length_eq_six {α : Type u} (l : List α) (h : l.length > 8) :
    (sliceLast 6 l).length = 6 := by
  simp [sliceLast]
  omega

/-- Logs of at most 8 messages are below the windowing threshold for the
OpenAI converter: it is the plain role map. -/
theorem convertHistoryToOpenAI_short (messages : List ChatMessage)
    (h : messages.length ≤ 8) :
    convertHistoryToOpenAI messages = messages.map toOpenAIMessage := by
  have h8 : ¬ 8 < messages.length := by omega
  simp [convertHistoryToOpenAI, h8]

/-- Logs of at most 8 messages are below the windowing threshold for the
Gemini converter: it is the plain role map. -/
theorem convertHistoryToGemini_short (messages : List ChatMessage)
    (h : messages.length ≤ 8) :
    convertHistoryToGemini messages = messages.map toGeminiContent := by
  have h8 : ¬ 8 < messages.length := by omega
  simp [convertHistoryToGemini, h8]

/-- Head of a trimmed window is safe when the slice does not start with two
assistant replies (OpenAI converter). -/
theorem convertHistoryToOpenAI_long_head (messages : List ChatMessage)
    (h8 : messages.length > 8)
    (h1 : ((sliceLast 6 (messages.map toOpenAIMessage)).get? 1).map MessageOpenAI.role
            ≠ some ORole.assistant) :
    ((convertHistoryToOpenAI messages).head?).map MessageOpenAI.role ≠ some ORole.assistant := by
  have hlen : (sliceLast 6 (messages.map toOpenAIMessage)).length = 6 := by
    apply sliceLast_length_eq_six
    simpa using h8
  rcases hs : sliceLast 6 (messages.map toOpenAIMessage) with _ | ⟨a, _ | ⟨b, t⟩⟩
  · rw [hs] at hlen
    simp at hlen
  · rw [hs] at hlen
    simp at hlen
  · rw [hs] at h1
    by_cases ha : a.role = ORole.assistant
    · simp [convertHistoryToOpenAI, h8, hs, ha]
      simpa using h1
    · simp [convertHistoryToOpenAI, h8, hs, ha]

/-- Head of a trimmed window is safe when the slice does not start with two
model replies (Gemini converter). -/
theorem convertHistoryToGemini_long_head (messages : List ChatMessage)
    (h8 : messages.length > 8)
    (h1 : ((sliceLast 6 (messages.map toGeminiContent)).get? 1).map ContentGemini.role
            ≠ some GRole.model) :
    ((convertHistoryToGemini messages).head?).map ContentGemini.role ≠ some GRole.model := by
  have hlen : (sliceLast 6 (messages.map toGeminiContent)).length = 6 := by
    apply sliceLast_length_eq_six
    simpa using h8
  rcases hs : sliceLast 6 (messages.map toGeminiContent) with _ | ⟨a, _ | ⟨b, t⟩⟩
  · rw [hs] at hlen
    simp at hlen
  · rw [hs] at hlen
    simp at hlen
  · rw [hs] at h1
    by_cases ha : a.role = GRole.model
    · simp [convertHistoryToGemini, h8, hs, ha]
      simpa using h1
    · simp [convertHistoryToGemini, h8, hs, ha]

/-! ### Concrete demonstration data -/

/-- A demo authenticated user. -/
def userDemo : User := { uid := "user-1" }

/-- A demo user-role message. -/
def demoUserMsg (i : Nat) : ChatMessage :=
  { userId := "user-1", content := "question", sentAt := i,
    type := Role.user, status := some Status.sent }

/-- A demo assistant-role message. -/
def demoAssistantMsg (i : Nat) : ChatMessage :=
  { userId := "user-1", content := "answer", sentAt := i,
    type := Role.assistant, status := some Status.sent }

/-- A 9-message log of user messages (above the converters' threshold of 8,
below the spec's claimed threshold of 12). -/
def nineUserLog : List ChatMessage :=
  [demoUserMsg 0, demoUserMsg 1, demoUserMsg 2, demoUserMsg 3, demoUserMsg 4,
   demoUserMsg 5, demoUserMsg 6, demoUserMsg 7, demoUserMsg 8]

/-- A 9-message log whose last-6 slice starts with two consecutive
assistant replies. -/
def doubleAssistantLog : List ChatMessage :=
  [demoUserMsg 0, demoUserMsg 1, demoUserMsg 2, demoAssistantMsg 3, demoAssistantMsg 4,
   demoUserMsg 5, demoUserMsg 6, demoUserMsg 7, demoUserMsg 8]

/-- A 2-message log, below every windowing threshold. -/
def shortLog : List ChatMessage := [demoUserMsg 0, demoAssistantMsg 1]

/-- An empty chat store with the busy flag down. -/
def stateDemo : ChatState := { messages := [], assistantResponding := false }

/-- A 6-message store whose last-6 slice (after the optimistic append of one
more user message) starts with an assistant reply. -/
def stateLongDemo : ChatState :=
  { messages := [demoUserMsg 0, demoAssistantMsg 1, demoUserMsg 2, demoAssistantMsg 3,
                 demoUserMsg 4, demoAssistantMsg 5],
    assistantResponding := false }

/-- Environment with no authenticated user. -/
def envNoUser : SendEnv :=
  { currentUser := none, nowUser := 0, nowAssistant := 0, nowError := 0,
    saveUserOk := true, genResult := Except.ok "reply", saveAssistantOk := true }

/-- Environment with an authenticated user and a succeeding generation call. -/
def envUser : SendEnv :=
  { currentUser := some userDemo, nowUser := 10, nowAssistant := 11, nowError := 12,
    saveUserOk := true, genResult := Except.ok "reply", saveAssistantOk := true }

/-- The provider error message for HTTP 429 produced by the adapters. -/
def rateLimitText : String := "You have exceeded the request limit. Please try again later."

/-- Environment with an authenticated user whose generation call rejects with
the simulated rate-limit error. -/
def envRateLimited : SendEnv :=
  { currentUser := some userDemo, nowUser := 1, nowAssistant := 2, nowError := 3,
    saveUserOk := true, genResult := Except.error rateLimitText, saveAssistantOk := true }

/-! ### Claim theorems -/

/-- Claim C1 (code bug): when the generation adapter rejects (simulated
rate-limit), `sendMessage` does reject with the wrapped generation error,
but the final message list contains NO assistant message with
`status=error` and no message carrying the canonical apology text: the
fallback save of the error message is the in-memory mock, which always
resolves (last conjunct), so the branch appending the error message to the
visible log is unreachable and the apology is silently discarded.  This
contradicts the claim and the spec's stated design (no silent total
failure). -/
theorem sendMessage_generation_failure_no_error_message_in_log :
    (sendMessage envRateLimited stateDemo "hello").result
        = Except.error (SendError.generationFailed rateLimitText) ∧
      (sendMessage envRateLimited stateDemo "hello").state.messages
        = [userMessageOf "user-1" "hello" 1] ∧
      (sendMessage envRateLimited stateDemo "hello").state.messages.all
        (fun m => !(m.status == some Status.error)) = true ∧
      (sendMessage envRateLimited stateDemo "hello").state.messages.all
        (fun m => !(m.content == apologyText)) = true ∧
      (∀ m : ChatMessage, firestoreServiceMockSaveMessage m = Except.ok ()) := by
  refine ⟨?_, ?_, ?_, ?_, fun m => rfl⟩ <;> decide

/-- Claim C2, counterexample: a 9-message log is within the claimed
`2*maxTurns = 12` bound, yet both converters trim it to 6 entries instead of
returning the full role-mapped log. -/
theorem windowing_short_log_twelve_counterexample :
    nineUserLog.length ≤ 2 * 6 ∧
      convertHistoryToOpenAI nineUserLog ≠ nineUserLog.map toOpenAIMessage ∧
      convertHistoryToGemini nineUserLog ≠ nineUserLog.map toGeminiContent := by
  decide

/-- Claim C2 (amended): the converters' small-log threshold is 8, not
`2*maxTurns = 12`: for every log of length at most 8 both converters return
the full log unchanged except for the role mapping (same length, order and
content). -/
theorem windowing_short_log_threshold_eight (messages : List ChatMessage)
    (h : messages.length ≤ 8) :
    convertHistoryToOpenAI messages = messages.map toOpenAIMessage ∧
      convertHistoryToGemini messages = messages.map toGeminiContent :=
  ⟨convertHistoryToOpenAI_short messages h, convertHistoryToGemini_short messages h⟩

/-- Witness for C2's amended theorem at a concrete 2-message log. -/
theorem windowing_short_log_threshold_eight_witness :
    convertHistoryToOpenAI shortLog = shortLog.map toOpenAIMessage ∧
      convertHistoryToGemini shortLog = shortLog.map toGeminiContent :=
  windowing_short_log_threshold_eight shortLog (by decide)

/-- Claim C3, counterexample: a 9-message log whose last-6 slice begins with
two consecutive assistant replies.  The fixup drops only the first of them,
so the windowed result's first element still has the assistant (resp.
`model`) role. -/
theorem windowed_head_assistant_counterexample :
    doubleAssistantLog.length > 8 ∧
      (convertHistoryToOpenAI doubleAssistantLog).head?.map MessageOpenAI.role
          = some ORole.assistant ∧
      (convertHistoryToGemini doubleAssistantLog).head?.map ContentGemini.role
          = some GRole.model := by
  decide

/-- Claim C3 (amended): for a log above the threshold, the turn-pairing
fixup drops exactly one leading assistant reply, so the windowed result
starts with a non-assistant (resp. non-`model`) entry provided the second
element of the last-6 slice is not itself an assistant reply; with two
consecutive assistant replies at the head of the slice the invariant fails
(see the counterexample). -/
theorem windowed_head_not_assistant (messages : List ChatMessage)
    (h8 : messages.length > 8)
    (hO : ((sliceLast 6 (messages.map toOpenAIMessage)).get? 1).map MessageOpenAI.role
            ≠ some ORole.assistant)
    (hG : ((sliceLast 6 (messages.map toGeminiContent)).get? 1).map ContentGemini.role
            ≠ some GRole.model) :
    ((convertHistoryToOpenAI messages).head?).map MessageOpenAI.role ≠ some ORole.assistant ∧
      ((convertHistoryToGemini messages).head?).map ContentGemini.role ≠ some GRole.model :=
  ⟨convertHistoryToOpenAI_long_head messages h8 hO,
   convertHistoryToGemini_long_head messages h8 hG⟩

/-- Witness for C3's amended theorem at the concrete 9-user-message log. -/
theorem windowed_head_not_assistant_witness :
    ((convertHistoryToOpenAI nineUserLog).head?).map MessageOpenAI.role
        ≠ some ORole.assistant ∧
      ((convertHistoryToGemini nineUserLog).head?).map ContentGemini.role
        ≠ some GRole.model :=
  windowed_head_not_assistant nineUserLog (by decide) (by decide) (by decide)

/-- Claim C4 (implicit): `sendMessage` windows the log itself with
`slice(-6)` before calling the converter, so the converter's own trimming
branch is unreachable from `sendMessage` (its input has at most 6 ≤ 8
entries): the single generation call in the trace always receives exactly
the role-mapped last-6 slice of the current log.  The final conjunct shows
this history can indeed begin with an assistant-role entry (no leading-drop
fixup runs on this path). -/
theorem sendMessage_history_is_rolemap_last6 (env : SendEnv) (s : ChatState)
    (text : String) (u : User)
    (huser : env.currentUser = some u) (htext : ¬ trimString text = "") :
    (sendMessage env s text).trace.filterMap generationHistory =
        [(sliceLast 6 (s.messages ++ [userMessageOf u.uid text env.nowUser])).map
          toOpenAIMessage] ∧
      (sendMessage envUser stateLongDemo "next question").trace.any
        (fun ev => match ev with
          | ChatEvent.generationCall _ (m :: _) => m.role == ORole.assistant
          | _ => false) = true := by
  have hshort := sliceLast_length_le (α := ChatMessage) 6
    (s.messages ++ [userMessageOf u.uid text env.nowUser])
  have hconv := convertHistoryToOpenAI_short _ (le_trans hshort (by norm_num))
  refine ⟨?_, by decide⟩
  rcases hg : env.genResult with r | e <;>
    simp [sendMessage, huser, htext, hg, generationHistory, hconv,
      firestoreServiceMockSaveMessage]

/-- Witness for C4's theorem at a concrete send from the empty store. -/
theorem sendMessage_history_is_rolemap_last6_witness :
    (sendMessage envUser stateDemo "hi").trace.filterMap generationHistory =
        [(sliceLast 6 (stateDemo.messages ++ [userMessageOf userDemo.uid "hi" envUser.nowUser])).map
          toOpenAIMessage] ∧
      (sendMessage envUser stateLongDemo "next question").trace.any
        (fun ev => match ev with
          | ChatEvent.generationCall _ (m :: _) => m.role == ORole.assistant
          | _ => false) = true :=
  sendMessage_history_is_rolemap_last6 envUser stateDemo "hi" userDemo rfl (by decide)

/-- Claim C5: with no current user, `sendMessage` rejects with the
not-authenticated error before any state mutation: the post-state is the
pre-state and the effect trace is empty (no append, no emission, no I/O). -/
theorem sendMessage_not_authenticated_rejects (env : SendEnv) (s : ChatState)
    (text : String) (h : env.currentUser = none) :
    sendMessage env s text =
      { state := s, trace := [], result := Except.error SendError.notAuthenticated } := by
  simp [sendMessage, h]

/-- Witness for C5's theorem: sending "hello" with no user. -/
theorem sendMessage_not_authenticated_rejects_witness :
    sendMessage envNoUser stateDemo "hello" =
      { state := stateDemo, trace := [], result := Except.error SendError.notAuthenticated } :=
  sendMessage_not_authenticated_rejects envNoUser stateDemo "hello" rfl

/-- Claim C6: once validation passes (user present, non-empty trimmed text),
the very first effect is the optimistic append: the trace starts with the
emission of the prior list plus exactly the new user message (trimmed
content, `status=sending`, `sentAt` set at creation), and the first awaited
I/O step (the user-message save) comes strictly after it. -/
theorem sendMessage_optimistic_append (env : SendEnv) (s : ChatState)
    (text : String) (u : User)
    (huser : env.currentUser = some u) (htext : ¬ trimString text = "") :
    (sendMessage env s text).trace.take 2 =
        [ChatEvent.emitMessages (s.messages ++ [userMessageOf u.uid text env.nowUser]),
         ChatEvent.saveMessageCall (userMessageOf u.uid text env.nowUser) env.saveUserOk] ∧
      (userMessageOf u.uid text env.nowUser).type = Role.user ∧
      (userMessageOf u.uid text env.nowUser).status = some Status.sending ∧
      (userMessageOf u.uid text env.nowUser).sentAt = env.nowUser := by
  refine ⟨?_, rfl, rfl, rfl⟩
  rcases hg : env.genResult with r | e <;>
    simp [sendMessage, huser, htext, hg, firestoreServiceMockSaveMessage]

/-- Witness for C6's theorem: sending "hi" from the empty store. -/
theorem sendMessage_optimistic_append_witness :
    (sendMessage envUser stateDemo "hi").trace.take 2 =
        [ChatEvent.emitMessages
          (stateDemo.messages ++ [userMessageOf userDemo.uid "hi" envUser.nowUser]),
         ChatEvent.saveMessageCall (userMessageOf userDemo.uid "hi" envUser.nowUser)
          envUser.saveUserOk] ∧
      (userMessageOf userDemo.uid "hi" envUser.nowUser).type = Role.user ∧
      (userMessageOf userDemo.uid "hi" envUser.nowUser).status = some Status.sending ∧
      (userMessageOf userDemo.uid "hi" envUser.nowUser).sentAt = envUser.nowUser :=
  sendMessage_optimistic_append envUser stateDemo "hi" userDemo rfl (by decide)

/-- Claim C7: for any validated send (successful or failed generation),
starting from a non-busy store the busy flag observed by a subscriber is
exactly `false → true → false`: the emitted busy values are `[true, false]`,
the final effect of the call is the clearing emission (finally-block
discipline), and the flag is `false` in the settled post-state. -/
theorem sendMessage_busy_bracketing (env : SendEnv) (s : ChatState)
    (text : String) (u : User)
    (huser : env.currentUser = some u) (htext : ¬ trimString text = "")
    (hbusy : s.assistantResponding = false) :
    s.assistantResponding :: (sendMessage env s text).trace.filterMap busyEvent
        = [false, true, false] ∧
      (sendMessage env s text).trace.getLast? = some (ChatEvent.emitBusy false) ∧
      (sendMessage env s text).state.assistantResponding = false := by
  rcases hg : env.genResult with r | e <;>
    simp [sendMessage, huser, htext, hg, hbusy, busyEvent, firestoreServiceMockSaveMessage]

/-- Witness for C7's theorem: sending "hi" from the empty, non-busy store. -/
theorem sendMessage_busy_bracketing_witness :
    stateDemo.assistantResponding
        :: (sendMessage envUser stateDemo "hi").trace.filterMap busyEvent
        = [false, true, false] ∧
      (sendMessage envUser stateDemo "hi").trace.getLast? = some (ChatEvent.emitBusy false) ∧
      (sendMessage envUser stateDemo "hi").state.assistantResponding = false :=
  sendMessage_busy_bracketing envUser stateDemo "hi" userDemo rfl (by decide) rfl

/-- Claim C8: for an authenticated caller (the authentication check runs
first, see C10) and a whitespace-only input, `sendMessage` resolves without
error and performs no store mutation: the post-state is the pre-state and
the effect trace is empty. -/
theorem sendMessage_empty_input_noop (env : SendEnv) (s : ChatState)
    (text : String) (u : User)
    (huser : env.currentUser = some u) (hempty : trimString text = "") :
    sendMessage env s text = { state := s, trace := [], result := Except.ok () } := by
  simp [sendMessage, huser, hempty]

/-- Witness for C8's theorem: sending three spaces while authenticated. -/
theorem sendMessage_empty_input_noop_witness :
    sendMessage envUser stateDemo "   " =
      { state := stateDemo, trace := [], result := Except.ok () } :=
  sendMessage_empty_input_noop envUser stateDemo "   " userDemo rfl (by decide)

/-- Claim C9: `clearChat` resets the message list to empty and emits the
empty list (`replaceAll([])`), leaves the busy flag untouched, and its
effect trace contains no call to durable storage. -/
theorem clearChat_resets (s : ChatState) :
    (clearChat s).1.messages = [] ∧
      (clearChat s).2 = [ChatEvent.emitMessages []] ∧
      (clearChat s).1.assistantResponding = s.assistantResponding ∧
      (clearChat s).2.all (fun ev => !isStorageCall ev) = true := by
  simp [clearChat, isStorageCall]

/-- Claim C10 (implicit): the authentication check precedes the
empty-input check, so a whitespace-only send with no current user rejects
with the not-authenticated error instead of resolving as a no-op. -/
theorem sendMessage_auth_checked_before_empty (env : SendEnv) (s : ChatState)
    (text : String) (h : env.currentUser = none) (hempty : trimString text = "") :
    (sendMessage env s text).result = Except.error SendError.notAuthenticated ∧
      (sendMessage env s text).result ≠ Except.ok () := by
  simp [sendMessage, h]

/-- Witness for C10's theorem: sending three spaces with no user. -/
theorem sendMessage_auth_checked_before_empty_witness :
    (sendMessage envNoUser stateDemo "   ").result
        = Except.error SendError.notAuthenticated ∧
      (sendMessage envNoUser stateDemo "   ").result ≠ Except.ok () :=
  sendMessage_auth_checked_before_empty envNoUser stateDemo "   " rfl (by decide)

end FirebaseChat
